import Mathlib

/-!
Shallow embedding of the `alx-backend-graphql_crm` CRM service:
the entity model (`crm/models.py`) and the mutation layer
(`crm/schema.py`), with theorems checking the specification's claims.

Conventions of the embedding:
* Django model rows become Lean structures; the database becomes an
  explicit `DB` state (lists of rows) threaded through each mutation.
* `DecimalField` values and Python `Decimal` arithmetic are embedded as
  `Rat` (exact decimal arithmetic, no floating-point rounding).
* A raised `GraphQLError(msg)` becomes `Except.error msg`; success
  becomes `Except.ok (newState, result)`.
* Primary keys are `Nat`; autoincrement is modelled by `freshId`.
* External collaborators (Django's email validator, Python's `Decimal`
  string parser, the clock) are modelled by small executable functions
  on their documented behaviour for the inputs the claims touch.
-/

deriving instance DecidableEq for Except

namespace Crm

/-- Row of the `Customer` table (`crm/models.py`): `name`, unique
`email`, optional `phone`. -/
structure Customer where
  id : Nat
  name : String
  email : String
  phone : Option String
deriving Repr, DecidableEq

/-- Row of the `Product` table (`crm/models.py`): `name`, optional
`description`, `stock` (IntegerField, default 0), `price`
(DecimalField, embedded as `Rat`). -/
structure Product where
  id : Nat
  name : String
  description : Option String
  stock : Int
  price : Rat
deriving Repr, DecidableEq

/-- Row of the `Order` table (`crm/models.py`): owning customer,
many-to-many product links (the join table, as a list of product ids),
cached `total_amount`, and `order_date` (timestamps as `Nat`). -/
structure Order where
  id : Nat
  customerId : Nat
  productIds : List Nat
  totalAmount : Rat
  orderDate : Nat
deriving Repr, DecidableEq

/-- The persistent store: the three tables. -/
structure DB where
  customers : List Customer
  products : List Product
  orders : List Order
deriving Repr, DecidableEq

/-- Autoincrement primary key: one more than the largest id in use. -/
def freshId (ids : List Nat) : Nat := ids.foldr max 0 + 1

/-- Python `str.split(sep)` for a one-character separator, on the
character list of a string: `"a@b"` becomes `["a", "b"]`, the empty
string becomes `[""]`, adjacent separators yield empty groups. -/
def splitChar (sep : Char) : List Char → List (List Char)
  | [] => [[]]
  | c :: cs =>
      match splitChar sep cs with
      | [] => if c == sep then [[], []] else [[c]]
      | g :: gs => if c == sep then [] :: g :: gs else (c :: g) :: gs

/-- Python `str.isdigit` on a character list: nonempty and every
character a digit. -/
def isdigitChars (cs : List Char) : Bool := !cs.isEmpty && cs.all (·.isDigit)

/-- Models the external Django `validate_email` collaborator: exactly
one `@` with a nonempty user part and a domain that contains a dot and
neither starts nor ends with one. -/
def validEmail (s : String) : Bool :=
  match splitChar '@' s.data with
  | [user, domain] =>
      !user.isEmpty && domain.contains '.' &&
        domain.head? != some '.' && domain.getLast? != some '.'
  | _ => false

/-- The phone test of `CreateCustomer.mutate` / `BulkCreateCustomers.mutate`
(`crm/schema.py` lines 86 and 116): a truthy (nonempty) phone is
rejected unless it starts with `+` (`str.startswith("+")`) or becomes
all digits once every hyphen is removed
(`str.replace("-", "").isdigit()`). -/
def phoneBad : Option String → Bool
  | none => false
  | some s =>
      !s.data.isEmpty &&
        !(s.data.head? == some '+' || isdigitChars (s.data.filter (· != '-')))

/-- Error kinds named by the specification (§7), mapped from the
concrete `GraphQLError` messages the code raises. -/
inductive ErrKind where
  | validation
  | duplicate
  | format
  | notFound
  | unknown
deriving Repr, DecidableEq

/-- Classifies each `GraphQLError` message of `crm/schema.py` under the
specification's error kinds (§7). -/
def errKind (msg : String) : ErrKind :=
  if msg = "Invalid email format" then .validation
  else if msg = "Email already exists" then .duplicate
  else if msg = "Invalid phone format. Use +1234567890 or 123-456-7890" then .validation
  else if msg = "Invalid decimal format for price" then .format
  else if msg = "Price must be positive" then .validation
  else if msg = "Stock cannot be negative" then .validation
  else if msg = "Invalid customer ID" then .notFound
  else if msg = "Some product IDs are invalid" then .notFound
  else if msg = "Order must include at least one product" then .validation
  else .unknown

/-- `CustomerInput` (`crm/schema.py`): name, email, optional phone. -/
structure CustomerInput where
  name : String
  email : String
  phone : Option String
deriving Repr, DecidableEq

/-- `ProductInput` (`crm/schema.py`): name, price as a string, stock
with graphene `default_value = 0` (modelled as `Option Int`, the
framework default applied at entry). -/
structure ProductInput where
  name : String
  price : String
  stock : Option Int
deriving Repr, DecidableEq

/-- `OrderInput` (`crm/schema.py`): customer id, product ids, optional
order date. -/
structure OrderInput where
  customerId : Nat
  productIds : List Nat
  orderDate : Option Nat
deriving Repr, DecidableEq

/-- `Customer.objects.create(...)`: the new row, with its autoincrement
primary key. -/
def newCustomer (db : DB) (input : CustomerInput) : Customer :=
  { id := freshId (db.customers.map (·.id)),
    name := input.name, email := input.email, phone := input.phone }

/-- The store after persisting that row. -/
def addCustomer (db : DB) (input : CustomerInput) : DB :=
  { db with customers := db.customers ++ [newCustomer db input] }

/-- `CreateCustomer.mutate` (`crm/schema.py` lines 74-95): validate the
email format, reject duplicate emails, reject bad phones, else persist
the new customer. -/
def CreateCustomer.mutate (db : DB) (input : CustomerInput) :
    Except String (DB × Customer) :=
  if !validEmail input.email then
    .error "Invalid email format"
  else if db.customers.any (·.email == input.email) then
    .error "Email already exists"
  else if phoneBad input.phone then
    .error "Invalid phone format. Use +1234567890 or 123-456-7890"
  else
    .ok (addCustomer db input, newCustomer db input)

/-- The row loop of `BulkCreateCustomers.mutate` (`crm/schema.py` lines
110-128): rows in input order, 1-based index `idx`; a failing row
records its error and the loop continues; a successful row is persisted
at once (visible to later duplicate checks) and collected. -/
def bulkRows (db : DB) (idx : Nat) :
    List CustomerInput → DB × List Customer × List String
  | [] => (db, [], [])
  | cust :: rest =>
    if !validEmail cust.email then
      let r := bulkRows db (idx + 1) rest
      (r.1, r.2.1, s!"Row {idx}: Invalid email format" :: r.2.2)
    else if db.customers.any (·.email == cust.email) then
      let r := bulkRows db (idx + 1) rest
      (r.1, r.2.1, s!"Row {idx}: Email already exists" :: r.2.2)
    else if phoneBad cust.phone then
      let r := bulkRows db (idx + 1) rest
      (r.1, r.2.1, s!"Row {idx}: Invalid phone format" :: r.2.2)
    else
      let r := bulkRows (addCustomer db cust) (idx + 1) rest
      (r.1, newCustomer db cust :: r.2.1, r.2.2)

/-- `BulkCreateCustomers.mutate` (`crm/schema.py` lines 105-130):
process every row, returning the final state, the created customers and
the per-row errors (both in row order). -/
def BulkCreateCustomers.mutate (db : DB) (input : List CustomerInput) :
    DB × List Customer × List String :=
  bulkRows db 1 input

/-- Leading sign of a decimal literal: the signum and the remaining
characters. -/
def stripSign : List Char → Int × List Char
  | [] => (1, [])
  | c :: cs =>
      if c == '+' then (1, cs)
      else if c == '-' then (-1, cs)
      else (1, c :: cs)

/-- The natural number denoted by a list of decimal digit characters. -/
def digitsVal (cs : List Char) : Nat :=
  cs.foldl (fun n c => n * 10 + (c.toNat - 48)) 0

/-- Models the external `Decimal(str)` collaborator on plain decimal
literals: optional sign, then digits with an optional fractional part
(at least one digit overall); anything else fails to parse. The value
is exact — no floating-point rounding. -/
def parseDecimal (s : String) : Option Rat :=
  let sign := (stripSign s.data).1
  let body := (stripSign s.data).2
  let intPart := body.takeWhile (·.isDigit)
  let rest := body.drop intPart.length
  match rest with
  | [] =>
      if intPart.isEmpty then none
      else some ((sign : Rat) * (digitsVal intPart : Rat))
  | c :: frac =>
      if c == '.' && frac.all (·.isDigit) && !(intPart.isEmpty && frac.isEmpty) then
        some ((sign : Rat) *
          ((digitsVal intPart * 10 ^ frac.length + digitsVal frac : Nat) : Rat)
          / ((10 ^ frac.length : Nat) : Rat))
      else none

/-- `Product.objects.create(...)`: the new row with its autoincrement
primary key, the parsed price, and the stock (graphene default 0 when
omitted). -/
def newProduct (db : DB) (input : ProductInput) (price : Rat) : Product :=
  { id := freshId (db.products.map (·.id)),
    name := input.name, description := none,
    stock := input.stock.getD 0, price := price }

/-- `CreateProduct.mutate` (`crm/schema.py` lines 140-156): parse the
price string as a decimal, reject non-positive prices and negative
stock, else persist the product. -/
def CreateProduct.mutate (db : DB) (input : ProductInput) :
    Except String (DB × Product) :=
  match parseDecimal input.price with
  | none => .error "Invalid decimal format for price"
  | some price =>
    if price ≤ 0 then .error "Price must be positive"
    else if input.stock.getD 0 < 0 then .error "Stock cannot be negative"
    else
      .ok ({ db with products := db.products ++ [newProduct db input price] },
        newProduct db input price)

/-- `Product.objects.filter(id__in=input.product_ids)`: the products of
the store whose id occurs in the requested list (each matching row
once, in table order). -/
def resolvedProducts (db : DB) (productIds : List Nat) : List Product :=
  db.products.filter (fun p => productIds.contains p.id)

/-- `CreateOrder.mutate` (`crm/schema.py` lines 166-187): resolve the
customer, resolve the products and require a count match, reject an
empty product list, then persist the order with `total_amount` the sum
of the resolved products' prices and link exactly those products. -/
def CreateOrder.mutate (db : DB) (now : Nat) (input : OrderInput) :
    Except String (DB × Order) :=
  match db.customers.find? (·.id == input.customerId) with
  | none => .error "Invalid customer ID"
  | some customer =>
    let products := resolvedProducts db input.productIds
    if products.length ≠ input.productIds.length then
      .error "Some product IDs are invalid"
    else if products.isEmpty then
      .error "Order must include at least one product"
    else
      let total := (products.map (·.price)).sum
      let o : Order :=
        { id := freshId (db.orders.map (·.id)),
          customerId := customer.id,
          productIds := products.map (·.id),
          totalAmount := total,
          orderDate := input.orderDate.getD now }
      .ok ({ db with orders := db.orders ++ [o] }, o)

/-- The sum computed by `Order.calculate_total` (`crm/models.py` line
29): the prices of the order's currently linked products, at their
current values in the store. -/
def orderTotal (db : DB) (o : Order) : Rat :=
  ((resolvedProducts db o.productIds).map (·.price)).sum

/-- `Order.calculate_total` (`crm/models.py` lines 27-32): recompute the
total from the current product prices, store it into `total_amount`
(`save(update_fields=["total_amount"])` — only that column of that
row), and return it. `none` when no order has the given id. -/
def Order.calculate_total (db : DB) (orderId : Nat) : Option (Rat × DB) :=
  match db.orders.find? (·.id == orderId) with
  | none => none
  | some o =>
    let total := orderTotal db o
    some (total,
      { db with orders := db.orders.map (fun x =>
          if x.id == orderId then { x with totalAmount := total } else x) })

/-- A direct product-price change (plain field assignment plus save on
the product row; no mutation in the API performs it): used to express
that order totals are not auto-updated. -/
def setPrice (db : DB) (productId : Nat) (newPrice : Rat) : DB :=
  { db with products := db.products.map (fun p =>
      if p.id == productId then { p with price := newPrice } else p) }

/-- The specification's first phone form, read literally: a plus sign
followed by digits only (`+<digits>`). -/
def specPhonePlusForm (s : String) : Bool :=
  s.data.head? == some '+' && isdigitChars (s.data.drop 1)

/-- The specification's second phone form, read literally: nonempty
digit groups separated by hyphens (`<digits>[-<digits>]*`). -/
def specPhoneGroupsForm (s : String) : Bool :=
  (splitChar '-' s.data).all (fun p => !p.isEmpty && p.all (·.isDigit))

/-- 5.50 as an exact rational (written with an explicit reduced
numerator/denominator so concrete store states evaluate by `decide`). -/
def q550 : Rat := ⟨11, 2, by decide, by decide⟩

/-- 15.50 as an exact rational. -/
def q1550 : Rat := ⟨31, 2, by decide, by decide⟩

/-- A small concrete store for the concrete checks: one customer, two
products priced 10.00 and 5.50, one order linking product 1 with the
stale total 10.00 recorded. -/
def dbW : DB :=
  { customers := [⟨1, "Alice", "alice@example.com", some "+1234567890"⟩],
    products := [⟨1, "Laptop", none, 10, 10⟩, ⟨2, "Mouse", none, 5, q550⟩],
    orders := [⟨1, 1, [1], 10, 5⟩] }

/-- C1: for every successful `createOrder` call, the persisted order's
`total_amount` is the exact decimal sum of the resolved products'
current prices, the order links exactly the resolved products, and the
store gains exactly that order. -/
theorem createOrder_total_exact (db : DB) (now : Nat) (input : OrderInput)
    (db' : DB) (o : Order)
    (h : CreateOrder.mutate db now input = .ok (db', o)) :
    o.totalAmount = ((resolvedProducts db input.productIds).map (·.price)).sum ∧
    o.productIds = (resolvedProducts db input.productIds).map (·.id) ∧
    db' = { db with orders := db.orders ++ [o] } := by
  unfold CreateOrder.mutate at h
  cases hc : db.customers.find? (·.id == input.customerId) with
  | none => rw [hc] at h; cases h
  | some customer =>
      rw [hc] at h
      simp only [] at h
      by_cases h1 :
          (resolvedProducts db input.productIds).length ≠ input.productIds.length
      · rw [if_pos h1] at h; cases h
      · rw [if_neg h1] at h
        by_cases h2 : (resolvedProducts db input.productIds).isEmpty = true
        · rw [if_pos h2] at h; cases h
        · rw [if_neg h2] at h
          simp only [Except.ok.injEq, Prod.mk.injEq] at h
          obtain ⟨hdb, ho⟩ := h
          subst hdb
          subst ho
          exact ⟨rfl, rfl, rfl⟩

/-- The ids of the resolved products are without duplicates whenever
the store's product ids are (they are a sublist). -/
lemma resolved_ids_nodup (db : DB) (ids : List Nat)
    (h : (db.products.map (·.id)).Nodup) :
    ((resolvedProducts db ids).map (·.id)).Nodup := by
  have hs : List.Sublist (resolvedProducts db ids) db.products :=
    List.filter_sublist _
  exact (hs.map (·.id)).nodup h

/-- Every resolved product's id occurs in the requested list. -/
lemma resolved_ids_subset (db : DB) (ids : List Nat) :
    ∀ i ∈ (resolvedProducts db ids).map (·.id), i ∈ ids := by
  intro i hi
  simp only [resolvedProducts, List.mem_map, List.mem_filter] at hi
  obtain ⟨p, ⟨_, hmem⟩, rfl⟩ := hi
  simpa using hmem

/-- At most one resolved product per distinct requested id. -/
lemma resolved_length_le (db : DB) (ids : List Nat)
    (h : (db.products.map (·.id)).Nodup) :
    (resolvedProducts db ids).length ≤ ids.toFinset.card := by
  have hcard : ((resolvedProducts db ids).map (·.id)).toFinset.card
      = (resolvedProducts db ids).length := by
    rw [List.toFinset_card_of_nodup (resolved_ids_nodup db ids h), List.length_map]
  rw [← hcard]
  apply Finset.card_le_card
  intro i hi
  rw [List.mem_toFinset] at hi ⊢
  exact resolved_ids_subset db ids i hi

/-- When a requested id matches no product of the store, strictly fewer
products resolve than ids were requested. -/
lemma resolved_length_lt_of_missing (db : DB) (ids : List Nat) (pid : Nat)
    (h : (db.products.map (·.id)).Nodup) (hmem : pid ∈ ids)
    (hmiss : ∀ p ∈ db.products, p.id ≠ pid) :
    (resolvedProducts db ids).length < ids.length := by
  have hsub : ((resolvedProducts db ids).map (·.id)).toFinset
      ⊆ ids.toFinset.erase pid := by
    intro i hi
    rw [List.mem_toFinset] at hi
    have hin : i ∈ ids := resolved_ids_subset db ids i hi
    have hne : i ≠ pid := by
      simp only [resolvedProducts, List.mem_map, List.mem_filter] at hi
      obtain ⟨p, ⟨hp, _⟩, rfl⟩ := hi
      exact hmiss p hp
    exact Finset.mem_erase.mpr ⟨hne, List.mem_toFinset.mpr hin⟩
  calc (resolvedProducts db ids).length
      = ((resolvedProducts db ids).map (·.id)).toFinset.card := by
        rw [List.toFinset_card_of_nodup (resolved_ids_nodup db ids h),
          List.length_map]
    _ ≤ (ids.toFinset.erase pid).card := Finset.card_le_card hsub
    _ < ids.toFinset.card := Finset.card_erase_lt_of_mem (List.mem_toFinset.mpr hmem)
    _ ≤ ids.length := ids.toFinset_card_le

/-- When the requested list repeats an id, strictly fewer products
resolve than ids were requested (the filter yields each matching row
once). -/
lemma resolved_length_lt_of_dup (db : DB) (ids : List Nat)
    (h : (db.products.map (·.id)).Nodup) (hdup : ¬ ids.Nodup) :
    (resolvedProducts db ids).length < ids.length := by
  have h1 := resolved_length_le db ids h
  have h2 : ids.toFinset.card < ids.length := by
    rw [List.card_toFinset]
    have hsub := ids.dedup_sublist
    rcases Nat.lt_or_ge ids.dedup.length ids.length with hlt | hge
    · exact hlt
    · exfalso
      have heq : ids.dedup.length = ids.length :=
        Nat.le_antisymm hsub.length_le hge
      have hEq := hsub.eq_of_length heq
      exact hdup (hEq ▸ ids.nodup_dedup)
  omega

/-- C2: a `createOrder` call naming a product id that resolves to no
product fails with a NotFoundError and creates nothing. -/
theorem createOrder_unresolved_product_fails (db : DB) (now : Nat)
    (input : OrderInput) (pid : Nat)
    (hnodup : (db.products.map (·.id)).Nodup)
    (hmem : pid ∈ input.productIds)
    (hmiss : ∀ p ∈ db.products, p.id ≠ pid) :
    ∃ e, CreateOrder.mutate db now input = .error e ∧ errKind e = .notFound := by
  unfold CreateOrder.mutate
  cases hc : db.customers.find? (·.id == input.customerId) with
  | none => exact ⟨_, rfl, by decide⟩
  | some customer =>
      simp only []
      have hlt := resolved_length_lt_of_missing db input.productIds pid hnodup hmem hmiss
      rw [if_pos (Nat.ne_of_lt hlt)]
      exact ⟨_, rfl, by decide⟩

/-- Closed check for C2: in `dbW`, requesting products `[1, 99]` (99
does not exist) fails with the NotFoundError kind. -/
theorem createOrder_unresolved_product_fails_witness :
    ∃ e, CreateOrder.mutate dbW 7 ⟨1, [1, 99], none⟩ = .error e ∧
      errKind e = .notFound :=
  createOrder_unresolved_product_fails dbW 7 ⟨1, [1, 99], none⟩ 99
    (by decide) (by decide) (by decide)

/-- C9: a `createOrder` call whose id list repeats a resolving id fails
with the product-not-found error, because the count of distinct
resolved products is compared against the length of the request. -/
theorem createOrder_duplicate_ids_fail (db : DB) (now : Nat)
    (input : OrderInput) (customer : Customer)
    (hnodup : (db.products.map (·.id)).Nodup)
    (hc : db.customers.find? (·.id == input.customerId) = some customer)
    (hdup : ¬ input.productIds.Nodup)
    (hresolve : ∀ i ∈ input.productIds, ∃ p ∈ db.products, p.id = i) :
    CreateOrder.mutate db now input = .error "Some product IDs are invalid" := by
  unfold CreateOrder.mutate
  rw [hc]
  simp only []
  have hlt := resolved_length_lt_of_dup db input.productIds hnodup hdup
  rw [if_pos (Nat.ne_of_lt hlt)]

/-- Closed check for C9: in `dbW`, requesting `[1, 1]` (product 1
exists, listed twice) fails with the product-not-found error. -/
theorem createOrder_duplicate_ids_fail_witness :
    CreateOrder.mutate dbW 7 ⟨1, [1, 1], none⟩ =
      .error "Some product IDs are invalid" :=
  createOrder_duplicate_ids_fail dbW 7 ⟨1, [1, 1], none⟩
    ⟨1, "Alice", "alice@example.com", some "+1234567890"⟩
    (by decide) (by decide) (by decide) (by decide)

/-- Counterexample to C5 as stated: in `dbW` the request `[99]`
resolves to no product at all, yet the call fails with the
NotFoundError "Some product IDs are invalid" (the count check runs
before the emptiness check), not with a ValidationError. -/
theorem createOrder_empty_resolved_cex :
    resolvedProducts dbW [99] = [] ∧
    CreateOrder.mutate dbW 7 ⟨1, [99], none⟩ =
      .error "Some product IDs are invalid" ∧
    errKind "Some product IDs are invalid" ≠ .validation :=
  ⟨by decide, by decide, by decide⟩

/-- C5 (amended): a `createOrder` call whose resolved product set is
empty never creates an order; when the requested id list itself is
empty (and the customer resolves), the failure is the ValidationError
"Order must include at least one product". -/
theorem createOrder_empty_products_rejected (db : DB) (now : Nat)
    (input : OrderInput)
    (hempty : resolvedProducts db input.productIds = []) :
    (∀ db' o, CreateOrder.mutate db now input ≠ .ok (db', o)) ∧
    (input.productIds = [] →
      ∀ customer, db.customers.find? (·.id == input.customerId) = some customer →
        CreateOrder.mutate db now input =
          .error "Order must include at least one product" ∧
        errKind "Order must include at least one product" = .validation) := by
  constructor
  · intro db' o
    unfold CreateOrder.mutate
    cases hc : db.customers.find? (·.id == input.customerId) with
    | none => simp
    | some customer =>
        simp only []
        by_cases h1 :
            (resolvedProducts db input.productIds).length ≠ input.productIds.length
        · rw [if_pos h1]; simp
        · rw [if_neg h1]
          have h2 : (resolvedProducts db input.productIds).isEmpty = true := by
            rw [hempty]; rfl
          rw [if_pos h2]
          simp
  · intro hids customer hc
    refine ⟨?_, by decide⟩
    unfold CreateOrder.mutate
    rw [hc]
    simp only []
    have h1 : ¬ (resolvedProducts db input.productIds).length
        ≠ input.productIds.length := by
      rw [hempty, hids]
      exact fun hne => hne rfl
    rw [if_neg h1]
    have h2 : (resolvedProducts db input.productIds).isEmpty = true := by
      rw [hempty]; rfl
    rw [if_pos h2]

/-- Closed check for C5 (amended): in `dbW` an order with the empty
product list fails with the ValidationError "Order must include at
least one product", and nothing is created. -/
theorem createOrder_empty_products_rejected_witness :
    CreateOrder.mutate dbW 7 ⟨1, [], none⟩ =
      .error "Order must include at least one product" ∧
    (∀ db' o, CreateOrder.mutate dbW 7 ⟨1, [], none⟩ ≠ .ok (db', o)) := by
  have h := createOrder_empty_products_rejected dbW 7 ⟨1, [], none⟩ (by decide)
  exact ⟨(h.2 rfl ⟨1, "Alice", "alice@example.com", some "+1234567890"⟩ (by decide)).1,
    h.1⟩

/-- Counterexample to C4 as stated: the phone "+abc" matches neither of
the specification's two forms, yet `createCustomer` accepts it (the
code only tests `startswith("+")`, not `+` followed by digits). -/
theorem createCustomer_phone_spec_cex :
    specPhonePlusForm "+abc" = false ∧ specPhoneGroupsForm "+abc" = false ∧
    CreateCustomer.mutate dbW ⟨"Eve", "eve@example.com", some "+abc"⟩ =
      .ok ({ dbW with customers :=
               dbW.customers ++ [⟨2, "Eve", "eve@example.com", some "+abc"⟩] },
           ⟨2, "Eve", "eve@example.com", some "+abc"⟩) :=
  ⟨by decide, by decide, by decide⟩

/-- C4 (amended): with a well-formed, unused email, `createCustomer`
fails with the phone ValidationError exactly when the phone is present,
nonempty, does not start with `+`, and does not consist of digits once
hyphens are removed; an omitted phone is never rejected. -/
theorem createCustomer_phone_validation (db : DB) (input : CustomerInput)
    (hv : validEmail input.email = true)
    (hu : db.customers.any (·.email == input.email) = false) :
    (CreateCustomer.mutate db input =
        .error "Invalid phone format. Use +1234567890 or 123-456-7890"
      ↔ phoneBad input.phone = true) ∧
    (phoneBad input.phone = true ↔
      ∃ s, input.phone = some s ∧ s.data ≠ [] ∧ s.data.head? ≠ some '+' ∧
        isdigitChars (s.data.filter (· != '-')) = false) ∧
    errKind "Invalid phone format. Use +1234567890 or 123-456-7890"
      = .validation ∧
    (input.phone = none →
      ∃ db' c, CreateCustomer.mutate db input = .ok (db', c)) := by
  refine ⟨?_, ?_, by decide, ?_⟩
  · unfold CreateCustomer.mutate
    simp only [hv, hu, Bool.not_true, Bool.false_eq_true, if_false]
    cases hpb : phoneBad input.phone with
    | true => simp
    | false => simp
  · cases hp : input.phone with
    | none => simp [phoneBad]
    | some s =>
        simp only [phoneBad, Bool.and_eq_true, Bool.not_eq_true',
          Bool.or_eq_false_iff, Bool.not_eq_true, Option.some.injEq]
        constructor
        · rintro ⟨h1, h2, h3⟩
          refine ⟨s, rfl, ?_, ?_, h3⟩
          · intro habs
            rw [habs] at h1
            simp at h1
          · intro habs
            rw [habs] at h2
            simp at h2
        · rintro ⟨t, ht, h1, h2, h3⟩
          cases ht
          refine ⟨?_, ?_, h3⟩
          · rw [Bool.eq_false_iff]
            intro habs
            exact h1 (List.isEmpty_iff.mp habs)
          · cases hh : s.data.head? with
            | none => rfl
            | some ch =>
                cases hch : ch == '+' with
                | false => simpa using hch
                | true =>
                    exfalso
                    apply h2
                    rw [hh]
                    have := (beq_iff_eq).mp hch
                    rw [this]
  · intro hp
    unfold CreateCustomer.mutate
    simp only [hv, hu, hp, Bool.not_true, Bool.false_eq_true, if_false, phoneBad]
    exact ⟨_, _, rfl⟩

/-- Closed check for C4 (amended): in `dbW`, phone "12a" (nonempty, no
leading `+`, not digits after hyphen removal) is rejected with the
phone ValidationError. -/
theorem createCustomer_phone_validation_witness :
    CreateCustomer.mutate dbW ⟨"Eve", "eve@example.com", some "12a"⟩ =
      .error "Invalid phone format. Use +1234567890 or 123-456-7890" :=
  (createCustomer_phone_validation dbW ⟨"Eve", "eve@example.com", some "12a"⟩
    (by decide) (by decide)).1.mpr (by decide)

/-- C6: `createCustomer` with the email of an already-persisted
customer (persisted emails are well-formed) fails with the
DuplicateError "Email already exists", whatever the name and phone. -/
theorem createCustomer_duplicate_email_fails (db : DB) (input : CustomerInput)
    (c : Customer) (hc : c ∈ db.customers) (he : c.email = input.email)
    (hv : validEmail input.email = true) :
    CreateCustomer.mutate db input = .error "Email already exists" ∧
    errKind "Email already exists" = .duplicate := by
  have hdup : db.customers.any (·.email == input.email) = true :=
    List.any_eq_true.mpr ⟨c, hc, by simp [he]⟩
  refine ⟨?_, by decide⟩
  unfold CreateCustomer.mutate
  simp [hv, hdup]

/-- Closed check for C6: in `dbW`, re-creating "alice@example.com" with
different name and phone fails with the DuplicateError. -/
theorem createCustomer_duplicate_email_fails_witness :
    CreateCustomer.mutate dbW ⟨"Mallory", "alice@example.com", some "999"⟩ =
      .error "Email already exists" ∧
    errKind "Email already exists" = .duplicate :=
  createCustomer_duplicate_email_fails dbW
    ⟨"Mallory", "alice@example.com", some "999"⟩
    ⟨1, "Alice", "alice@example.com", some "+1234567890"⟩
    (by decide) rfl (by decide)

/-- The bulk loop on no rows: nothing created, no errors. -/
lemma bulkRows_nil (db : DB) (idx : Nat) : bulkRows db idx [] = (db, [], []) :=
  rfl

/-- The bulk loop on a fully valid row: the row is persisted, collected,
and the loop continues on the extended store. -/
lemma bulkRows_cons_ok (db : DB) (idx : Nat) (cust : CustomerInput)
    (rest : List CustomerInput)
    (hv : validEmail cust.email = true)
    (hd : db.customers.any (·.email == cust.email) = false)
    (hp : phoneBad cust.phone = false) :
    bulkRows db idx (cust :: rest) =
      ((bulkRows (addCustomer db cust) (idx + 1) rest).1,
       newCustomer db cust :: (bulkRows (addCustomer db cust) (idx + 1) rest).2.1,
       (bulkRows (addCustomer db cust) (idx + 1) rest).2.2) := by
  conv_lhs => unfold bulkRows
  simp [hv, hd, hp]

/-- The bulk loop on a duplicate-email row: the row error is recorded
and the loop continues on the unchanged store. -/
lemma bulkRows_cons_dup (db : DB) (idx : Nat) (cust : CustomerInput)
    (rest : List CustomerInput)
    (hv : validEmail cust.email = true)
    (hd : db.customers.any (·.email == cust.email) = true) :
    bulkRows db idx (cust :: rest) =
      ((bulkRows db (idx + 1) rest).1,
       (bulkRows db (idx + 1) rest).2.1,
       s!"Row {idx}: Email already exists" :: (bulkRows db (idx + 1) rest).2.2) := by
  conv_lhs => unfold bulkRows
  simp [hv, hd]

/-- Every bulk row yields exactly one outcome: a created customer or a
row error (no row is skipped, none aborts the loop). -/
lemma bulkRows_outcome_count (db : DB) (idx : Nat) (rows : List CustomerInput) :
    (bulkRows db idx rows).2.1.length + (bulkRows db idx rows).2.2.length
      = rows.length := by
  induction rows generalizing db idx with
  | nil => rfl
  | cons r rest ih =>
      unfold bulkRows
      cases hve : validEmail r.email with
      | false =>
          simp only [hve, Bool.not_false, if_true, List.length_cons]
          have := ih db (idx + 1)
          omega
      | true =>
          simp only [hve, Bool.not_true, Bool.false_eq_true, if_false]
          cases hdup : db.customers.any (·.email == r.email) with
          | true =>
              simp only [if_true, List.length_cons]
              have := ih db (idx + 1)
              omega
          | false =>
              simp only [Bool.false_eq_true, if_false]
              cases hph : phoneBad r.phone with
              | true =>
                  simp only [if_true, List.length_cons]
                  have := ih db (idx + 1)
                  omega
              | false =>
                  simp only [Bool.false_eq_true, if_false, List.length_cons]
                  have := ih (addCustomer db r) (idx + 1)
                  omega

/-- C3: bulk creation processes rows in input order with per-row error
isolation. Generally, every row yields exactly one outcome; and for
input [valid A, duplicate-email B, valid C] over any store, the result
is customers [A, C] (in order, both persisted, A not rolled back by B's
failure) and the single error "Row 2: Email already exists". -/
theorem bulkCreateCustomers_per_row (db : DB) (a b c : CustomerInput)
    (hva : validEmail a.email = true)
    (hua : db.customers.any (·.email == a.email) = false)
    (hpa : phoneBad a.phone = false)
    (hdupb : b.email = a.email)
    (hvc : validEmail c.email = true)
    (huc : db.customers.any (·.email == c.email) = false)
    (hcb : c.email ≠ a.email)
    (hpc : phoneBad c.phone = false) :
    (∀ db2 idx rows, (bulkRows db2 idx rows).2.1.length
        + (bulkRows db2 idx rows).2.2.length = rows.length) ∧
    ∃ ca cc,
      (BulkCreateCustomers.mutate db [a, b, c]).2.1 = [ca, cc] ∧
      (BulkCreateCustomers.mutate db [a, b, c]).2.2
        = ["Row 2: Email already exists"] ∧
      (BulkCreateCustomers.mutate db [a, b, c]).1.customers
        = db.customers ++ [ca] ++ [cc] ∧
      (BulkCreateCustomers.mutate db [a, b, c]).1.products = db.products ∧
      (BulkCreateCustomers.mutate db [a, b, c]).1.orders = db.orders ∧
      ca.name = a.name ∧ ca.email = a.email ∧ ca.phone = a.phone ∧
      cc.name = c.name ∧ cc.email = c.email ∧ cc.phone = c.phone := by
  refine ⟨fun db2 idx rows => bulkRows_outcome_count db2 idx rows, ?_⟩
  have hvb : validEmail b.email = true := by rw [hdupb]; exact hva
  have hdupB : (addCustomer db a).customers.any (·.email == b.email) = true := by
    simp only [addCustomer, newCustomer, List.any_append, List.any_cons,
      List.any_nil, hdupb, hua]
    simp
  have hucB : (addCustomer db a).customers.any (·.email == c.email) = false := by
    simp only [addCustomer, newCustomer, List.any_append, List.any_cons,
      List.any_nil, huc, Bool.false_or, Bool.or_false]
    exact beq_eq_false_iff_ne.mpr fun h => hcb h.symm
  have hstep : BulkCreateCustomers.mutate db [a, b, c] =
      (addCustomer (addCustomer db a) c,
       [newCustomer db a, newCustomer (addCustomer db a) c],
       ["Row 2: Email already exists"]) := by
    rw [BulkCreateCustomers.mutate,
      bulkRows_cons_ok db 1 a [b, c] hva hua hpa,
      bulkRows_cons_dup (addCustomer db a) 2 b [c] hvb hdupB,
      bulkRows_cons_ok (addCustomer db a) 3 c [] hvc hucB hpc,
      bulkRows_nil]
    rfl
  exact ⟨newCustomer db a, newCustomer (addCustomer db a) c,
    by rw [hstep], by rw [hstep], by rw [hstep]; rfl, by rw [hstep]; rfl,
    by rw [hstep]; rfl, rfl, rfl, rfl, rfl, rfl, rfl⟩

/-- Closed check for C3: over `dbW`, bulk input [Bob, Eve-with-Bob's
email, Dan] creates Bob and Dan in order and reports exactly
"Row 2: Email already exists". -/
theorem bulkCreateCustomers_per_row_witness :
    ∃ ca cc,
      (BulkCreateCustomers.mutate dbW
        [⟨"Bob", "bob@x.com", none⟩, ⟨"Eve", "bob@x.com", none⟩,
         ⟨"Dan", "dan@x.com", none⟩]).2.1 = [ca, cc] ∧
      (BulkCreateCustomers.mutate dbW
        [⟨"Bob", "bob@x.com", none⟩, ⟨"Eve", "bob@x.com", none⟩,
         ⟨"Dan", "dan@x.com", none⟩]).2.2 = ["Row 2: Email already exists"] ∧
      ca.name = "Bob" ∧ cc.name = "Dan" := by
  obtain ⟨-, ca, cc, h1, h2, -, -, -, hn1, -, -, hn2, -, -⟩ :=
    bulkCreateCustomers_per_row dbW ⟨"Bob", "bob@x.com", none⟩
      ⟨"Eve", "bob@x.com", none⟩ ⟨"Dan", "dan@x.com", none⟩
      (by decide) (by decide) (by decide) rfl (by decide) (by decide)
      (by decide) (by decide)
  exact ⟨ca, cc, h1, h2, hn1, hn2⟩

/-- Closed check for C1: in the concrete store `dbW`, ordering products
1 (price 10.00) and 2 (price 5.50) succeeds with `total_amount`
exactly 15.50 and links exactly those two products. -/
theorem createOrder_total_exact_witness :
    ∃ db' o, CreateOrder.mutate dbW 7 ⟨1, [1, 2], none⟩ = .ok (db', o) ∧
      o.totalAmount = q1550 ∧ o.productIds = [1, 2] ∧
      db'.orders = dbW.orders ++ [o] := by
  obtain ⟨ht, hp, hdb⟩ := createOrder_total_exact dbW 7 ⟨1, [1, 2], none⟩ _ _ rfl
  refine ⟨_, _, rfl, ?_, ?_, ?_⟩
  · rw [ht]
    show ([(10 : Rat), q550]).sum = q1550
    simp only [q550, q1550, List.sum_cons, List.sum_nil, Rat.mk'_eq_divInt,
      Rat.divInt_eq_div]
    norm_num
  · rw [hp]; rfl
  · rw [hdb]

/-- C7: `createProduct` fails with the FormatError when the price
string does not parse, with a ValidationError when the parsed price is
non-positive or the stock is negative, and otherwise persists and
returns the product with the parsed price and the given stock (0 when
omitted). -/
theorem createProduct_spec (db : DB) (input : ProductInput) :
    (parseDecimal input.price = none →
      CreateProduct.mutate db input = .error "Invalid decimal format for price" ∧
      errKind "Invalid decimal format for price" = .format) ∧
    (∀ q, parseDecimal input.price = some q → q ≤ 0 →
      CreateProduct.mutate db input = .error "Price must be positive" ∧
      errKind "Price must be positive" = .validation) ∧
    (∀ q, parseDecimal input.price = some q → 0 < q → input.stock.getD 0 < 0 →
      CreateProduct.mutate db input = .error "Stock cannot be negative" ∧
      errKind "Stock cannot be negative" = .validation) ∧
    (∀ q, parseDecimal input.price = some q → 0 < q → 0 ≤ input.stock.getD 0 →
      ∃ p, CreateProduct.mutate db input =
          .ok ({ db with products := db.products ++ [p] }, p) ∧
        p.price = q ∧ p.stock = input.stock.getD 0 ∧ p.name = input.name ∧
        (input.stock = none → p.stock = 0)) := by
  refine ⟨?_, ?_, ?_, ?_⟩
  · intro h
    refine ⟨?_, by decide⟩
    unfold CreateProduct.mutate
    rw [h]
  · intro q hq hle
    refine ⟨?_, by decide⟩
    unfold CreateProduct.mutate
    rw [hq]
    simp only []
    rw [if_pos hle]
  · intro q hq hpos hneg
    refine ⟨?_, by decide⟩
    unfold CreateProduct.mutate
    rw [hq]
    simp only []
    rw [if_neg (not_le.mpr hpos), if_pos hneg]
  · intro q hq hpos hnonneg
    refine ⟨newProduct db input q, ?_, rfl, rfl, rfl, fun h => by
      show (input.stock.getD 0 : Int) = 0
      rw [h]; rfl⟩
    unfold CreateProduct.mutate
    rw [hq]
    simp only []
    rw [if_neg (not_le.mpr hpos), if_neg (not_lt.mpr hnonneg)]

/-- Closed check for C7: a concrete call for each branch — unparsable
price "abc", non-positive price "-1", negative stock, and a successful
creation at price "5.50" with omitted stock defaulting to 0. -/
theorem createProduct_spec_witness :
    CreateProduct.mutate dbW ⟨"Pen", "abc", none⟩ =
      .error "Invalid decimal format for price" ∧
    CreateProduct.mutate dbW ⟨"Pen", "-1", none⟩ =
      .error "Price must be positive" ∧
    CreateProduct.mutate dbW ⟨"Pen", "5.50", some (-2)⟩ =
      .error "Stock cannot be negative" ∧
    ∃ p, CreateProduct.mutate dbW ⟨"Pen", "5.50", none⟩ =
        .ok ({ dbW with products := dbW.products ++ [p] }, p) ∧
      p.price = 11 / 2 ∧ p.stock = 0 := by
  have h550 : parseDecimal "5.50" = some (11 / 2) := by
    simp [parseDecimal, stripSign, digitsVal]
    norm_num
  have hm1 : parseDecimal "-1" = some (-1) := by
    simp [parseDecimal, stripSign, digitsVal]
  refine ⟨((createProduct_spec dbW ⟨"Pen", "abc", none⟩).1 (by decide)).1,
    ((createProduct_spec dbW ⟨"Pen", "-1", none⟩).2.1 (-1) hm1 (by norm_num)).1,
    ((createProduct_spec dbW ⟨"Pen", "5.50", some (-2)⟩).2.2.1 (11 / 2) h550
      (by norm_num) (by decide)).1, ?_⟩
  obtain ⟨p, hp, hprice, -, -, hnone⟩ :=
    (createProduct_spec dbW ⟨"Pen", "5.50", none⟩).2.2.2 (11 / 2) h550
      (by norm_num) (by decide)
  exact ⟨p, hp, hprice, hnone rfl⟩

/-- The stored update of `calculate_total` touches exactly the row it
found: searching again finds the same order with only `total_amount`
replaced. -/
lemma find?_update (l : List Order) (orderId : Nat) (t : Rat) (o : Order)
    (h : l.find? (·.id == orderId) = some o) :
    (l.map (fun x =>
        if x.id == orderId then { x with totalAmount := t } else x)).find?
      (·.id == orderId) = some { o with totalAmount := t } := by
  induction l with
  | nil => simp at h
  | cons x xs ih =>
      rw [List.map_cons]
      by_cases hx : (x.id == orderId) = true
      · simp only [List.find?_cons_of_pos, hx] at h
        injection h with h
        subst h
        rw [if_pos hx]
        simp only [List.find?_cons_of_pos, hx]
      · rw [Bool.not_eq_true] at hx
        simp only [List.find?_cons_of_neg, hx, Bool.false_eq_true,
          not_false_eq_true] at h
        rw [if_neg (by simp [hx])]
        simp only [List.find?_cons_of_neg, hx, Bool.false_eq_true,
          not_false_eq_true]
        exact ih h

/-- A list is pointwise related to its image under a map whenever the
map relates every element to its image. -/
lemma forall₂_map_self {α : Type} (R : α → α → Prop) (f : α → α) (l : List α)
    (h : ∀ x, R x (f x)) : List.Forall₂ R l (l.map f) := by
  induction l with
  | nil => exact List.Forall₂.nil
  | cons x xs ih => exact List.Forall₂.cons (h x) ih

/-- C8: invoking `calculate_total` on an order stores and returns the
sum of the current prices of its products (so it reflects price changes
made since creation), while a bare product price change never touches
any stored order: order rows, including their stored totals, are
unchanged by `setPrice`. -/
theorem calculate_total_explicit_only (db : DB) (orderId : Nat) (o : Order)
    (hfind : db.orders.find? (·.id == orderId) = some o) :
    (Order.calculate_total db orderId =
      some (orderTotal db o,
        { db with orders := db.orders.map (fun x =>
            if x.id == orderId then { x with totalAmount := orderTotal db o }
            else x) })) ∧
    (∀ pid newPrice, (setPrice db pid newPrice).orders = db.orders) ∧
    (∀ pid newPrice, ∃ db2,
      Order.calculate_total (setPrice db pid newPrice) orderId =
        some (orderTotal (setPrice db pid newPrice) o, db2)) := by
  refine ⟨?_, fun pid newPrice => rfl, fun pid newPrice => ?_⟩
  · unfold Order.calculate_total
    rw [hfind]
  · exact ⟨_, by
      unfold Order.calculate_total
      rw [show (setPrice db pid newPrice).orders.find? (·.id == orderId)
          = some o from hfind]⟩

/-- Closed check for C8: in `dbW` (order 1 over product 1, price
10.00), recomputation returns the current sum 10.00; changing product
1's price to 5.50 leaves the stored orders untouched, and a subsequent
explicit recomputation returns the new sum 5.50. -/
theorem calculate_total_explicit_only_witness :
    (∃ db2, Order.calculate_total dbW 1 =
      some (orderTotal dbW ⟨1, 1, [1], 10, 5⟩, db2)) ∧
    orderTotal dbW ⟨1, 1, [1], 10, 5⟩ = 10 ∧
    (setPrice dbW 1 q550).orders = dbW.orders ∧
    (∃ db2, Order.calculate_total (setPrice dbW 1 q550) 1 =
      some (orderTotal (setPrice dbW 1 q550) ⟨1, 1, [1], 10, 5⟩, db2)) ∧
    orderTotal (setPrice dbW 1 q550) ⟨1, 1, [1], 10, 5⟩ = q550 := by
  have h := calculate_total_explicit_only dbW 1 ⟨1, 1, [1], 10, 5⟩ rfl
  refine ⟨⟨_, h.1⟩, ?_, h.2.1 1 q550, h.2.2 1 q550, ?_⟩
  · show ([(10 : Rat)]).sum = 10
    simp
  · show ([q550]).sum = q550
    simp

/-- C10: `calculate_total` changes only the found order's
`total_amount` — the store's customers and products, every order's
identity, owning customer, product links and date are unchanged — and
the returned value is exactly the stored one. -/
theorem calculate_total_frame (db : DB) (orderId : Nat) (o : Order)
    (hfind : db.orders.find? (·.id == orderId) = some o) :
    ∃ t db', Order.calculate_total db orderId = some (t, db') ∧
      db'.orders.find? (·.id == orderId) = some { o with totalAmount := t } ∧
      db'.customers = db.customers ∧
      db'.products = db.products ∧
      List.Forall₂ (fun x y => y.id = x.id ∧ y.customerId = x.customerId ∧
          y.productIds = x.productIds ∧ y.orderDate = x.orderDate)
        db.orders db'.orders := by
  refine ⟨orderTotal db o,
    { db with orders := db.orders.map (fun x =>
        if x.id == orderId then { x with totalAmount := orderTotal db o }
        else x) }, ?_, ?_, rfl, rfl, ?_⟩
  · unfold Order.calculate_total
    rw [hfind]
  · exact find?_update db.orders orderId (orderTotal db o) o hfind
  · apply forall₂_map_self
    intro x
    by_cases hx : (x.id == orderId) = true
    · rw [if_pos hx]
      exact ⟨rfl, rfl, rfl, rfl⟩
    · rw [if_neg hx]
      exact ⟨rfl, rfl, rfl, rfl⟩

/-- Closed check for C10: recomputing order 1 of `dbW` returns the
stored value and leaves the customer, product links and date of the
order, and the rest of the store, unchanged. -/
theorem calculate_total_frame_witness :
    ∃ t db', Order.calculate_total dbW 1 = some (t, db') ∧
      db'.customers = dbW.customers ∧ db'.products = dbW.products ∧
      db'.orders.find? (·.id == 1) = some ⟨1, 1, [1], t, 5⟩ := by
  obtain ⟨t, db', h1, h2, h3, h4, h5⟩ :=
    calculate_total_frame dbW 1 ⟨1, 1, [1], 10, 5⟩ rfl
  exact ⟨t, db', h1, h3, h4, h2⟩

end Crm
